import Mathlib

/-!
Verification of the kaunta analytics backend (Go + PL/pgSQL) against its
natural-language specification.  Events and sessions are shallow-embedded as
Lean structures; the SQL aggregate queries and the Go query helpers are
embedded as pure functions over lists of rows.  Timestamps are seconds as
integers; rates and averages are exact rationals.

The file is organised as one block of definitions (data model, embeddings of
the source functions, concrete example logs) followed by one block of
theorems.
-/

namespace Kaunta

/-- A row of the append-only table website_event.  Session attributes live in
a separate session table; event_type 1 marks a pageview, 2 a custom event
(matching the event_type = 1 filters in the SQL). -/
structure Event where
  sessionId : Nat
  eventType : Nat
  urlPath : Option String
  referrerDomain : Option String
  createdAt : Int
deriving DecidableEq, Repr

/-- A row of the session table holding the denormalized visitor attributes
joined by the aggregate queries. -/
structure Session where
  sessionId : Nat
  country : Option String
  browser : Option String
  device : Option String
  os : Option String
  city : Option String
  region : Option String
deriving DecidableEq, Repr

/-- Embedding of the SQL filter event_type = 1. -/
def isPageview (e : Event) : Bool :=
  e.eventType == 1

/-- Embedding of the SQL window filter created_at >= NOW() - INTERVAL 1 day * days,
with NOW() passed explicitly and a day of 86400 seconds. -/
def inWindow (now days : Int) (e : Event) : Bool :=
  decide (now - days * 86400 ≤ e.createdAt)

/-- Rows of the inner subquery of calculatePageBounceRate
(src/internal/cli/analytics.go:911): pageviews of one session inside the
window, over the whole site. -/
def sessionWindowPageviews (evs : List Event) (now days : Int) (sid : Nat) : List Event :=
  evs.filter (fun e => e.sessionId == sid && isPageview e && inWindow now days e)

/-- The per-session pageview_count computed by the inner subquery of
calculatePageBounceRate (COUNT(*) grouped by session_id, event_type = 1,
window restricted, site-wide). -/
def sessionPageviewCount (evs : List Event) (now days : Int) (sid : Nat) : Nat :=
  (sessionWindowPageviews evs now days sid).length

/-- Outer rows of calculatePageBounceRate: pageview events at the given
url_path inside the window. -/
def pageRows (evs : List Event) (now days : Int) (path : String) : List Event :=
  evs.filter (fun e => isPageview e && inWindow now days e && e.urlPath == some path)

/-- Embedding of calculatePageBounceRate (src/internal/cli/analytics.go:906).
The SQL computes, over the event rows at the page,
COUNT(DISTINCT CASE WHEN pageview_count = 1 THEN session_id END) divided by
NULLIF(COUNT(DISTINCT session_id), 0) times 100; on a NULL result (zero
denominator or no rows) the Go wrapper returns 0.  The value is exact: the Go
function applies no rounding. -/
def calculatePageBounceRate (evs : List Event) (now days : Int) (path : String) : ℚ :=
  let rows := pageRows evs now days path
  let denom := (rows.map (·.sessionId)).dedup.length
  let numer :=
    ((rows.filter (fun e => sessionPageviewCount evs now days e.sessionId == 1)).map
      (·.sessionId)).dedup.length
  if denom = 0 then 0 else (numer : ℚ) / (denom : ℚ) * 100

/-- Session-level restatement of the bounce-rate formula from the spec: the
distinct sessions with a qualifying pageview at the page, of which the bounced
ones are those with exactly one qualifying pageview site-wide in the window. -/
def bounceRateSpec (evs : List Event) (now days : Int) (path : String) : ℚ :=
  let sids := ((pageRows evs now days path).map (·.sessionId)).dedup
  let bounced := sids.filter (fun sid => sessionPageviewCount evs now days sid == 1)
  if sids.length = 0 then 0 else (bounced.length : ℚ) / (sids.length : ℚ) * 100

/-- Log with one session holding one pageview at /a plus one custom event:
claim C1 asserts this session is not bounced. -/
def exLogC1 : List Event :=
  [⟨1, 1, some "/a", none, 0⟩, ⟨1, 2, none, none, 5⟩]

/-- Log with three sessions at /a, exactly one of which is bounced, making the
exact bounce rate 100/3, which is not a 1-decimal value. -/
def exLogC1third : List Event :=
  [⟨1, 1, some "/a", none, 0⟩, ⟨2, 1, some "/a", none, 0⟩, ⟨2, 1, some "/b", none, 5⟩,
   ⟨3, 1, some "/a", none, 0⟩, ⟨3, 1, some "/b", none, 9⟩]

/-- Optional session-attribute filters of the SQL analytics functions
(p_country, p_browser, p_device), NULL meaning no constraint. -/
def sessionFilterMatch (s : Session) (country browser device : Option String) : Bool :=
  (match country with | none => true | some c => s.country == some c) &&
  (match browser with | none => true | some b => s.browser == some b) &&
  (match device with | none => true | some d => s.device == some d)

/-- Qualifying rows of get_avg_session_duration (migration 000007 lines
234-246): pageviews in the window whose session row exists (inner JOIN) and
passes the optional filters. -/
def durationRows (evs : List Event) (sess : List Session) (now days : Int)
    (country browser device : Option String) : List Event :=
  evs.filter (fun e =>
    isPageview e && inWindow now days e &&
    match sess.find? (fun s => s.sessionId == e.sessionId) with
    | none => false
    | some s => sessionFilterMatch s country browser device)

/-- Qualifying rows of getAverageEngagement (src/internal/cli/analytics.go:884):
pageviews in the window, with no session join and no filters. -/
def engagementRows (evs : List Event) (now days : Int) : List Event :=
  evs.filter (fun e => isPageview e && inWindow now days e)

/-- MAX(created_at) - MIN(created_at) over one session's rows; 0 on a single
row. -/
def sessionSpan (rows : List Event) (sid : Nat) : Int :=
  match (rows.filter (fun e => e.sessionId == sid)).map (·.createdAt) with
  | [] => 0
  | t :: ts => ts.foldl max t - ts.foldl min t

/-- Distinct sessions of a row list (GROUP BY session_id). -/
def rowSessions (rows : List Event) : List Nat :=
  (rows.map (·.sessionId)).dedup

/-- Sessions kept by the HAVING COUNT(*) > 1 clause of
get_avg_session_duration. -/
def multiPageviewSessions (rows : List Event) : List Nat :=
  (rowSessions rows).filter (fun sid => 1 < (rows.filter (fun e => e.sessionId == sid)).length)

/-- Embedding of get_avg_session_duration (migration 000007 lines 223-254):
average of per-session MAX-MIN spans over the sessions with more than one
qualifying pageview, COALESCEd to 0 when there is none. -/
def get_avg_session_duration (evs : List Event) (sess : List Session) (now days : Int)
    (country browser device : Option String) : ℚ :=
  let rows := durationRows evs sess now days country browser device
  let multi := multiPageviewSessions rows
  if multi.length = 0 then 0
  else (((multi.map (fun sid => sessionSpan rows sid)).sum : Int) : ℚ) / (multi.length : ℚ)

/-- Embedding of getAverageEngagement (src/internal/cli/analytics.go:882): the
same per-session MAX-MIN average, but over every session with at least one
qualifying pageview — the query has no HAVING clause, so single-pageview
sessions contribute zero-duration terms; 0 when AVG is NULL (no rows). -/
def getAverageEngagement (evs : List Event) (now days : Int) : ℚ :=
  let rows := engagementRows evs now days
  let sids := rowSessions rows
  if sids.length = 0 then 0
  else (((sids.map (fun sid => sessionSpan rows sid)).sum : Int) : ℚ) / (sids.length : ℚ)

/-- Log with one two-pageview session (span 10 seconds) and one
single-pageview session. -/
def exLogC2 : List Event :=
  [⟨1, 1, some "/a", none, 0⟩, ⟨1, 1, some "/b", none, 10⟩, ⟨2, 1, some "/a", none, 0⟩]

/-- Session rows for exLogC2. -/
def exSessC2 : List Session :=
  [⟨1, none, none, none, none, none, none⟩, ⟨2, none, none, none, none, none, none⟩]

/-- Log where every session has two pageviews, for the C2 witness. -/
def exLogC2multi : List Event :=
  [⟨1, 1, some "/a", none, 0⟩, ⟨1, 1, some "/b", none, 10⟩,
   ⟨2, 1, some "/a", none, 0⟩, ⟨2, 1, some "/b", none, 4⟩]

/-- A wall-clock instant broken into calendar fields, as handed to hashDate. -/
structure DateTime where
  year : Nat
  month : Nat
  day : Nat
  hour : Nat
  minute : Nat
  second : Nat
deriving DecidableEq, Repr

/-- Calendar-field sanity bounds (months 1-12, days 1-31, hours and minutes in
range), used where digest injectivity is stated. -/
def DateTime.valid (t : DateTime) : Prop :=
  t.month < 13 ∧ t.day < 32 ∧ t.hour < 24 ∧ t.minute < 60 ∧ t.second < 60

/-- Modelled from the spec: the hashDate implementation is absent from src
(only TestHashDate in src/unnamed/part_007 remains); per the spec it truncates
now to the start of the period — hour, day or month, any unrecognized period
behaving as day. -/
def truncateDate (t : DateTime) (period : String) : DateTime :=
  if period = "hour" then { t with minute := 0, second := 0 }
  else if period = "month" then { t with day := 1, hour := 0, minute := 0, second := 0 }
  else { t with hour := 0, minute := 0, second := 0 }

/-- Modelled from the spec: the digest of the truncated instant is a
fixed-width deterministic value that differs whenever the truncated instants
differ (the spec promises a different digest once the bucket boundary is
crossed), modelled as an injective mixed-radix encoding of the calendar
fields. -/
def dateDigest (t : DateTime) : Nat :=
  ((((t.year * 13 + t.month) * 32 + t.day) * 24 + t.hour) * 60 + t.minute) * 60 + t.second

/-- Modelled from the spec: hashDate = digest of the period-truncated
instant. -/
def hashDate (t : DateTime) (period : String) : Nat :=
  dateDigest (truncateDate t period)

/-- Character-level check that the second list starts the first-argument
pattern: the building block for substring search. -/
def leadsWith : List Char → List Char → Bool
  | [], _ => true
  | _ :: _, [] => false
  | a :: as, b :: bs => a == b && leadsWith as bs

/-- Occurrence of a token anywhere in a character list. -/
def occursIn (tok : List Char) : List Char → Bool
  | [] => tok.isEmpty
  | c :: rest => leadsWith tok (c :: rest) || occursIn tok rest

/-- strings.Contains for the token tables. -/
def strContains (s tok : String) : Bool :=
  occursIn tok.toList s.toList

/-- ASCII lowercase of one character. -/
def lowerChar (c : Char) : Char :=
  if 'A' ≤ c && c ≤ 'Z' then Char.ofNat (c.toNat + 32) else c

/-- ASCII lowercase of a string (strings.ToLower / SQL LOWER on ASCII
domains). -/
def lowerStr (s : String) : String :=
  String.mk (s.toList.map lowerChar)

/-- Modelled from the spec: the parseUserAgent implementation is absent from
src (only TestParseUserAgent in src/unnamed/part_007 remains); per the spec
the browser is decided by an ordered rule table evaluated top-to-bottom with
first match winning, the Edge token tested before the Chrome token. -/
def browserRules : List (String × String) :=
  [("Edg", "Edge"), ("Chrome", "Chrome"), ("Firefox", "Firefox"), ("Safari", "Safari")]

/-- Modelled from the spec: ordered OS rule table, mobile platforms tested
before the desktop tokens they embed (iPhone user agents carry a Mac OS X
token, Android user agents carry a Linux token). -/
def osRules : List (String × String) :=
  [("Windows", "Windows"), ("iPhone", "iOS"), ("iPad", "iOS"), ("Android", "Android"),
   ("Mac OS X", "macOS"), ("Macintosh", "macOS"), ("Linux", "Linux")]

/-- Modelled from the spec: mobile-indicating tokens checked before the
desktop fallback. -/
def mobileTokens : List String :=
  ["Mobile", "Android", "iPhone"]

/-- First matching rule of an ordered table, or the fallback. -/
def firstMatch (rules : List (String × String)) (ua : String) (fallback : String) : String :=
  match rules with
  | [] => fallback
  | (tok, res) :: rest => if strContains ua tok then res else firstMatch rest ua fallback

/-- Modelled from the spec: classify(userAgent) = (browser, os, device) with
the sentinel triple Unknown / Unknown / desktop on empty or unrecognized
input. -/
def parseUserAgent (ua : String) : String × String × String :=
  (firstMatch browserRules ua "Unknown",
   firstMatch osRules ua "Unknown",
   if mobileTokens.any (fun tok => strContains ua tok) then "mobile" else "desktop")

/-- The Edge-on-Windows user agent from TestParseUserAgent, which also
contains a Chrome token. -/
def edgeUA : String :=
  "Mozilla/5.0 (Windows NT 10.0; Win64; x64) AppleWebKit/537.36 (KHTML, like Gecko) Chrome/91.0.4472.124 Safari/537.36 Edg/91.0.864.59"

/-- The Safari-on-iOS mobile user agent from TestParseUserAgent. -/
def iosUA : String :=
  "Mozilla/5.0 (iPhone; CPU iPhone OS 14_6 like Mac OS X) AppleWebKit/605.1.15 (KHTML, like Gecko) Version/14.0 Mobile/15E148 Safari/604.1"

/-- The unrecognized user agent from TestParseUserAgent. -/
def customUA : String :=
  "Some Custom Browser/1.0"

/-- Character-level check that the first-argument pattern ends the second
list. -/
def trailsWith (tail s : List Char) : Bool :=
  leadsWith tail.reverse s.reverse

/-- Remainder of a character list after the first occurrence of a separator,
or none when the separator never occurs. -/
def dropThrough (sep : List Char) : List Char → Option (List Char)
  | [] => none
  | c :: rest =>
    if leadsWith sep (c :: rest) then some ((c :: rest).drop sep.length)
    else dropThrough sep rest

/-- Characters up to the first slash. -/
def takeUntilSlash : List Char → List Char
  | [] => []
  | c :: rest => if c = '/' then [] else c :: takeUntilSlash rest

/-- Modelled from the spec: referrer URL parsing reduced to host extraction —
an empty referrer or one without a scheme separator fails to parse; otherwise
the host is the authority section up to the first slash, lowercased for
case-insensitive comparison. -/
def parseReferrerHost (referrer : String) : Option String :=
  if referrer = "" then none
  else
    match dropThrough "://".toList referrer.toList with
    | none => none
    | some rest => some (String.mk ((takeUntilSlash rest).map lowerChar))

/-- Modelled from the spec: the static spam-domain denylist, kept lowercase;
TestSpamReferrerList pins these four domains as members. -/
def spamReferrers : List String :=
  ["semalt.com", "darodar.com", "best-seo-offer.com", "buttons-for-website.com"]

/-- One denylist entry matches a host when the host equals the domain or is a
subdomain of it. -/
def hostMatchesSpam (host domain : String) : Bool :=
  host == domain || trailsWith (String.append "." domain).toList host.toList

/-- Modelled from the spec: isSpamReferrer fails open on unparseable or empty
referrers and otherwise compares the lowercased host against the denylist,
matching the exact domain or any subdomain. -/
def isSpamReferrer (referrer : String) : Bool :=
  match parseReferrerHost referrer with
  | none => false
  | some host => spamReferrers.any (fun d => hostMatchesSpam host d)

/-- The URL size cap; TestMaxURLSize pins it to 2000. -/
def MaxURLSize : Nat := 2000

/-- A tracking beacon payload: url plus the optional scroll-depth and
engagement-time integers. -/
structure TrackingPayload where
  url : String
  scrollDepth : Option Int
  engagementTime : Option Int
deriving DecidableEq, Repr

/-- The constraint a rejected payload violates. -/
inductive ValidationError where
  | urlTooLong
  | scrollDepthOutOfRange
  | engagementTimeNegative
deriving DecidableEq, Repr

/-- Modelled from the spec: the payload validator is absent from src (only
TestTrackingPayload_URLValidation and TestTrackingPayload_ValidationLogic
remain); it rejects a url longer than MaxURLSize, a scroll_depth outside
0-100 and a negative engagement_time, reporting the violated constraint, and
returns an accepted payload unchanged. -/
def validatePayload (p : TrackingPayload) : Except ValidationError TrackingPayload :=
  if p.url.length > MaxURLSize then .error .urlTooLong
  else if (match p.scrollDepth with
           | some d => decide (d < 0 ∨ 100 < d)
           | none => false) then .error .scrollDepthOutOfRange
  else if (match p.engagementTime with
           | some t => decide (t < 0)
           | none => false) then .error .engagementTimeNegative
  else .ok p

/-- A url of exactly MaxURLSize characters. -/
def urlAtLimit : String :=
  String.mk (List.replicate 2000 'a')

/-- A url of MaxURLSize + 1 characters. -/
def urlOverLimit : String :=
  String.mk (List.replicate 2001 'a')

/-- A website row: id, domain and soft-delete timestamp. -/
structure Website where
  websiteId : String
  domain : String
  deletedAt : Option Int
deriving DecidableEq, Repr

/-- Embedding of GetWebsiteIDByDomain (src/internal/cli/analytics.go:421):
SELECT website_id FROM website WHERE domain = $1 AND deleted_at IS NULL — an
exact, case-sensitive domain match; zero rows become the distinct
website-not-found error. -/
def GetWebsiteIDByDomain (table : List Website) (domain : String) : Except String String :=
  match table.find? (fun w => w.domain == domain && w.deletedAt == none) with
  | some w => .ok w.websiteId
  | none => .error (String.append "website not found: " domain)

/-- Embedding of GetWebsiteByDomain (src/internal/cli/db.go:28):
WHERE deleted_at IS NULL AND (LOWER(domain) = LOWER($1) OR website_id = $2)
LIMIT 1; the optional website_id fallback matches only when non-NULL, and
zero rows become the distinct not-found error. -/
def GetWebsiteByDomain (table : List Website) (domain : String) (websiteID : Option String) :
    Except String Website :=
  match table.find? (fun w => w.deletedAt == none &&
      (lowerStr w.domain == lowerStr domain || some w.websiteId == websiteID)) with
  | some w => .ok w
  | none => .error (String.append (String.append "website '" domain) "' not found")

/-- Website table with one live row, for C7. -/
def exSitesC7 : List Website :=
  [⟨"id1", "example.com", none⟩]

/-- Website table whose only matching row is soft-deleted, for the C7
witness. -/
def exSitesC7deleted : List Website :=
  [⟨"id2", "gone.com", some 1700000000⟩]

/-- A query-layer outcome: either a validation error raised before any
storage access, or a storage query executed with the given parameters. -/
inductive QueryOutcome (α : Type) where
  | validationError (msg : String)
  | queried (params : α)
deriving DecidableEq, Repr

/-- Embedding of the parameter handling of runStatsPages
(src/internal/cli/analytics.go:251-259): days and top are range-checked
before the database is touched, and in-range values reach the query
unchanged. -/
def runStatsPagesParams (days top : Int) : QueryOutcome (Int × Int) :=
  if days < 1 || days > 365 then .validationError "days must be between 1 and 365"
  else if top < 1 || top > 100 then .validationError "top must be between 1 and 100"
  else .queried (days, top)

/-- Embedding of the days handling of HandleTimeSeries
(src/unnamed/part_004:20-24): the HTTP handler performs no validation; it
silently clamps any days above 90 down to 90 and always runs the query. -/
def handleTimeSeriesParams (days : Int) : QueryOutcome Int :=
  .queried (if days > 90 then 90 else days)

/-- Event rows joined to their session rows (JOIN session s ON
e.session_id = s.session_id); events without a session row drop out. -/
def joinedRows (evs : List Event) (sess : List Session) : List (Event × Session) :=
  evs.filterMap (fun e =>
    (sess.find? (fun s => s.sessionId == e.sessionId)).map (fun s => (e, s)))

/-- Optional page filter (p_page_path IS NULL OR e.url_path = p_page_path). -/
def pageFilterMatch (e : Event) (page : Option String) : Bool :=
  match page with
  | none => true
  | some p => e.urlPath == some p

/-- Base rows of a get_breakdown branch: joined pageviews in the window
passing the given optional filters. -/
def breakdownRows (evs : List Event) (sess : List Session) (now days : Int)
    (country browser device page : Option String) : List (Event × Session) :=
  (joinedRows evs sess).filter (fun r =>
    isPageview r.1 && inWindow now days r.1 &&
    sessionFilterMatch r.2 country browser device && pageFilterMatch r.1 page)

/-- GROUP BY with COUNT(*): each distinct key with its multiplicity, in order
of first appearance. -/
def groupCounts (keys : List String) : List (String × Nat) :=
  keys.dedup.map (fun k => (k, (keys.filter (fun x => x == k)).length))

/-- Insertion of one keyed count into a descending-by-count list. -/
def insertByCount (x : String × Nat) : List (String × Nat) → List (String × Nat)
  | [] => [x]
  | y :: ys => if y.2 ≤ x.2 then x :: y :: ys else y :: insertByCount x ys

/-- ORDER BY count DESC as an insertion sort; ties keep their relative order,
the storage's natural order. -/
def sortByCountDesc : List (String × Nat) → List (String × Nat)
  | [] => []
  | x :: xs => insertByCount x (sortByCountDesc xs)

/-- One dimension branch of get_breakdown: group, order by count descending,
truncate to the limit. -/
def breakdownBranch (rows : List (Event × Session)) (key : Event × Session → String)
    (lim : Nat) : List (String × Nat) :=
  (sortByCountDesc (groupCounts (rows.map key))).take lim

/-- The dimensions get_breakdown accepts. -/
def validBreakdownDimensions : List String :=
  ["country", "browser", "device", "referrer", "city", "region", "page"]

/-- The error raised by get_breakdown's ELSE branch, enumerating the valid
set. -/
def invalidDimensionMessage (dim : String) : String :=
  String.append (String.append "Invalid dimension: " dim)
    ". Must be country, browser, device, referrer, city, region, or page"

/-- Embedding of get_breakdown (migration 000007 lines 9-138): one CASE
branch per dimension, each applying the other optional filters, COALESCE
mapping a null dimension value to Unknown (Direct / None for referrer), the
page branch dropping null paths and ignoring the page filter; rows are
grouped, ordered by count descending and truncated to p_limit; any other
dimension raises the enumerating error. -/
def get_breakdown (evs : List Event) (sess : List Session) (dim : String) (now days : Int)
    (lim : Nat) (country browser device page : Option String) :
    Except String (List (String × Nat)) :=
  if dim = "country" then
    .ok (breakdownBranch (breakdownRows evs sess now days none browser device page)
      (fun r => r.2.country.getD "Unknown") lim)
  else if dim = "browser" then
    .ok (breakdownBranch (breakdownRows evs sess now days country none device page)
      (fun r => r.2.browser.getD "Unknown") lim)
  else if dim = "device" then
    .ok (breakdownBranch (breakdownRows evs sess now days country browser none page)
      (fun r => r.2.device.getD "Unknown") lim)
  else if dim = "referrer" then
    .ok (breakdownBranch (breakdownRows evs sess now days country browser device page)
      (fun r => r.1.referrerDomain.getD "Direct / None") lim)
  else if dim = "city" then
    .ok (breakdownBranch (breakdownRows evs sess now days country browser device page)
      (fun r => r.2.city.getD "Unknown") lim)
  else if dim = "region" then
    .ok (breakdownBranch (breakdownRows evs sess now days country browser device page)
      (fun r => r.2.region.getD "Unknown") lim)
  else if dim = "page" then
    .ok (breakdownBranch ((breakdownRows evs sess now days country browser device none).filter
      (fun r => !(r.1.urlPath == none)))
      (fun r => r.1.urlPath.getD "Unknown") lim)
  else
    .error (invalidDimensionMessage dim)

/-- Embedding of the dimension validation in runStatsBreakdown
(src/internal/cli/analytics.go:301-311): the CLI accepts country, browser,
device, referrer and os only, rejecting anything else before any query with a
message enumerating its own set. -/
def runStatsBreakdownDimensionCheck (dim : String) : Except String Unit :=
  if dim = "country" || dim = "browser" || dim = "device" || dim = "referrer" || dim = "os"
  then .ok ()
  else .error (String.append (String.append "invalid dimension: " dim)
    " (valid: country, browser, device, referrer, os)")

/-- The top-page record of the Overview (PageStat in analytics.go). -/
structure PageStat where
  path : String
  pageviews : Int
  uniqueVisitors : Int
deriving DecidableEq, Repr

/-- The top-referrer record of the Overview (ReferrerStat in analytics.go). -/
structure ReferrerStat where
  domain : String
  visitors : Int
  pageviews : Int
deriving DecidableEq, Repr

/-- The eight sub-query results GetOverviewStats consumes, each able to fail
independently at the storage layer. -/
structure OverviewQueries where
  visitors : Except String Int
  pageviews : Except String Int
  topPage : Except String PageStat
  topReferrer : Except String ReferrerStat
  browsers : Except String (List (String × Int))
  devices : Except String (List (String × Int))
  countries : Except String (List (String × Int))
  avgEngagement : Except String ℚ

/-- The Overview result (OverviewStats in analytics.go), sub-fields empty or
zero when their query degraded. -/
structure OverviewStats where
  totalVisitors : Int
  totalPageviews : Int
  topPage : Option PageStat
  topReferrer : Option ReferrerStat
  browserDistribution : List (String × Int)
  deviceDistribution : List (String × Int)
  countryDistribution : List (String × Int)
  avgEngagement : ℚ
deriving DecidableEq, Repr

/-- Embedding of GetOverviewStats (src/internal/cli/analytics.go:434-510): the
visitors and pageviews queries surface their errors and abort the operation;
every remaining sub-query is non-critical and degrades to its empty or zero
default when it fails. -/
def GetOverviewStats (q : OverviewQueries) : Except String OverviewStats :=
  match q.visitors with
  | .error e => .error (String.append "failed to query visitors: " e)
  | .ok v =>
    match q.pageviews with
    | .error e => .error (String.append "failed to query pageviews: " e)
    | .ok p =>
      .ok { totalVisitors := v
            totalPageviews := p
            topPage := q.topPage.toOption
            topReferrer := q.topReferrer.toOption
            browserDistribution := q.browsers.toOption.getD []
            deviceDistribution := q.devices.toOption.getD []
            countryDistribution := q.countries.toOption.getD []
            avgEngagement := q.avgEngagement.toOption.getD 0 }

/-- The dashboard response of HandleDashboardStats (DashboardStats in the
handlers package); the bounce rate is kept numeric here. -/
structure DashboardStats where
  currentVisitors : Int
  todayPageviews : Int
  todayVisitors : Int
  todayBounceRate : ℚ
deriving DecidableEq, Repr

/-- Embedding of HandleDashboardStats (src/unnamed/part_005:43-75): the
single get_dashboard_stats call's failure is swallowed — the handler answers
success with all-zero values instead of surfacing the error. -/
def HandleDashboardStats (q : Except String (Int × Int × Int × ℚ)) : DashboardStats :=
  match q with
  | .error _ => ⟨0, 0, 0, 0⟩
  | .ok r => ⟨r.1, r.2.1, r.2.2.1, r.2.2.2⟩

/-- Embedding of HandleTopPages (src/internal/handlers/pages.go:42-57): a
storage failure becomes a distinct 500 response, never an empty page list. -/
def HandleTopPages (q : Except String (List PageStat)) :
    Except (Nat × String) (List PageStat) :=
  match q with
  | .error _ => .error (500, "Failed to query top pages")
  | .ok rows => .ok rows

/-!  Theorems.  -/

/-- Deduplication commutes with filtering; the list-level fact behind equating
COUNT(DISTINCT ...) over filtered rows with filtering the distinct values. -/
theorem dedup_filter {α : Type} [DecidableEq α] (p : α → Bool) (l : List α) :
    (l.filter p).dedup = l.dedup.filter p := by
  induction l with
  | nil => rfl
  | cons a l ih =>
    by_cases h : p a
    · rw [List.filter_cons_of_pos h]
      by_cases hm : a ∈ l
      · rw [List.dedup_cons_of_mem hm,
          List.dedup_cons_of_mem (List.mem_filter.mpr ⟨hm, h⟩), ih]
      · rw [List.dedup_cons_of_not_mem hm,
          List.dedup_cons_of_not_mem (fun hc => hm (List.mem_filter.mp hc).1), ih,
          List.filter_cons_of_pos h]
    · rw [List.filter_cons_of_neg h]
      by_cases hm : a ∈ l
      · rw [List.dedup_cons_of_mem hm, ih]
      · rw [List.dedup_cons_of_not_mem hm, ih, List.filter_cons_of_neg h]

/-- The numerator of the SQL query, computed over event rows, equals the count
of bounced sessions computed over the distinct session list. -/
theorem bounce_numerator_eq (rows : List Event) (p : Nat → Bool) :
    ((rows.filter (fun e => p e.sessionId)).map (·.sessionId)).dedup
      = ((rows.map (·.sessionId)).dedup).filter p := by
  have hmf : (rows.filter (fun e => p e.sessionId)).map (·.sessionId)
      = (rows.map (·.sessionId)).filter p := (List.filter_map _ _).symm
  rw [hmf, dedup_filter]

/-- Prepending a non-pageview event changes none of the row sets feeding the
bounce-rate query: every SQL branch filters on event_type = 1. -/
theorem pageRows_cons_custom {e : Event} (h : isPageview e = false)
    (evs : List Event) (now days : Int) (path : String) :
    pageRows (e :: evs) now days path = pageRows evs now days path := by
  simp [pageRows, List.filter_cons, h]

/-- Prepending a non-pageview event leaves every per-session pageview count
unchanged. -/
theorem sessionPageviewCount_cons_custom {e : Event} (h : isPageview e = false)
    (evs : List Event) (now days : Int) :
    sessionPageviewCount (e :: evs) now days = sessionPageviewCount evs now days := by
  funext sid
  simp [sessionPageviewCount, sessionWindowPageviews, List.filter_cons, h]

/-- C1 (amended): calculatePageBounceRate returns exactly
(count of sessions with exactly one qualifying site-wide pageview in the
window) / (count of sessions with a pageview at the page in the window) * 100
as an exact rational (rounding to one decimal happens only at display), it
returns 0 instead of a division fault when there are no such sessions, and
custom events are ignored entirely: a session with one pageview plus one
custom event counts as bounced, and adding any non-pageview event never
changes a bounce rate. -/
theorem C1_bounce_rate_characterization (evs : List Event) (now days : Int) (path : String) :
    calculatePageBounceRate evs now days path = bounceRateSpec evs now days path ∧
    (pageRows evs now days path = [] → calculatePageBounceRate evs now days path = 0) ∧
    ∀ e : Event, isPageview e = false →
      calculatePageBounceRate (e :: evs) now days path
        = calculatePageBounceRate evs now days path := by
  refine ⟨?_, ?_, ?_⟩
  · simp only [calculatePageBounceRate, bounceRateSpec]
    rw [bounce_numerator_eq (pageRows evs now days path)
      (fun sid => sessionPageviewCount evs now days sid == 1)]
  · intro h
    simp [calculatePageBounceRate, h]
  · intro e h
    simp only [calculatePageBounceRate,
      pageRows_cons_custom h, sessionPageviewCount_cons_custom h]

/-- C1 witness: the characterization applied to the concrete two-event log,
with the custom-event hypothesis discharged by evaluation. -/
theorem C1_bounce_rate_characterization_witness :
    calculatePageBounceRate exLogC1 0 7 "/a" = bounceRateSpec exLogC1 0 7 "/a" ∧
    calculatePageBounceRate (⟨2, 2, none, none, 3⟩ :: exLogC1) 0 7 "/a"
      = calculatePageBounceRate exLogC1 0 7 "/a" :=
  ⟨(C1_bounce_rate_characterization exLogC1 0 7 "/a").1,
   (C1_bounce_rate_characterization exLogC1 0 7 "/a").2.2 ⟨2, 2, none, none, 3⟩ rfl⟩

/-- C1 counterexample: in the log with one session holding one pageview at /a
and one custom event, the session has exactly one pageview, so the code
reports a bounce rate of 100 for /a — the claim says such a session is not
counted as bounced, which would force rate 0.  Moreover a three-session log
yields the exact value 100/3, whose tenfold is not an integer, so the returned
value is not rounded to one decimal. -/
theorem C1_claim_counterexample :
    sessionPageviewCount exLogC1 0 7 1 = 1 ∧
    calculatePageBounceRate exLogC1 0 7 "/a" = 100 ∧
    (calculatePageBounceRate exLogC1third 0 7 "/a" * 10).den ≠ 1 := by
  refine ⟨by decide, ?_, ?_⟩
  · have h1 : (((pageRows exLogC1 0 7 "/a").map (·.sessionId)).dedup.length) = 1 := by decide
    have h2 : ((((pageRows exLogC1 0 7 "/a").filter
        (fun e => sessionPageviewCount exLogC1 0 7 e.sessionId == 1)).map
        (·.sessionId)).dedup.length) = 1 := by decide
    simp only [calculatePageBounceRate]
    rw [h1, h2]
    norm_num
  · have h1 : (((pageRows exLogC1third 0 7 "/a").map (·.sessionId)).dedup.length) = 3 := by
      decide
    have h2 : ((((pageRows exLogC1third 0 7 "/a").filter
        (fun e => sessionPageviewCount exLogC1third 0 7 e.sessionId == 1)).map
        (·.sessionId)).dedup.length) = 1 := by decide
    simp only [calculatePageBounceRate]
    rw [h1, h2]
    norm_num

/-- C2 (amended): get_avg_session_duration averages per-session spans over the
sessions with at least two qualifying pageviews: a session with exactly one
qualifying pageview is never in the averaged set, and with no multi-pageview
session the result is 0.  The Overview's getAverageEngagement does NOT follow
this rule: it averages over every session with at least one qualifying
pageview, counting single-pageview sessions as zero terms, and agrees with
get_avg_session_duration (on unfiltered, fully-joined logs) exactly when every
qualifying session has more than one pageview. -/
theorem C2_avg_session_duration_characterization
    (evs : List Event) (sess : List Session) (now days : Int)
    (country browser device : Option String) :
    (∀ sid : Nat,
      ((durationRows evs sess now days country browser device).filter
        (fun e => e.sessionId == sid)).length = 1 →
      sid ∉ multiPageviewSessions (durationRows evs sess now days country browser device)) ∧
    (multiPageviewSessions (durationRows evs sess now days country browser device) = [] →
      get_avg_session_duration evs sess now days country browser device = 0) ∧
    ((∀ e ∈ evs, (sess.find? (fun s => s.sessionId == e.sessionId)).isSome = true) →
     (∀ sid ∈ rowSessions (engagementRows evs now days),
        1 < ((engagementRows evs now days).filter (fun e => e.sessionId == sid)).length) →
     getAverageEngagement evs now days
       = get_avg_session_duration evs sess now days none none none) := by
  refine ⟨?_, ?_, ?_⟩
  · intro sid hone hmem
    have h := (List.mem_filter.mp hmem).2
    rw [hone] at h
    simp at h
  · intro h
    simp [get_avg_session_duration, h]
  · intro hjoin hmulti
    have hrows : durationRows evs sess now days none none none
        = engagementRows evs now days := by
      apply List.filter_congr
      intro e he
      have := hjoin e he
      rcases hfind : sess.find? (fun s => s.sessionId == e.sessionId) with _ | s
      · rw [hfind] at this
        simp at this
      · simp [hfind, sessionFilterMatch]
    have hfil : multiPageviewSessions (engagementRows evs now days)
        = rowSessions (engagementRows evs now days) := by
      apply List.filter_eq_self.mpr
      intro sid hsid
      exact decide_eq_true (hmulti sid hsid)
    simp only [get_avg_session_duration, getAverageEngagement, hrows, hfil]

/-- C2 witness: the characterization applied to a log where every session has
two pageviews and a matching session row; the average engagement agrees with
the SQL average (7 seconds). -/
theorem C2_avg_session_duration_characterization_witness :
    getAverageEngagement exLogC2multi 0 7
      = get_avg_session_duration exLogC2multi exSessC2 0 7 none none none ∧
    2 ∉ multiPageviewSessions (durationRows exLogC2 exSessC2 0 7 none none none) :=
  ⟨(C2_avg_session_duration_characterization exLogC2multi exSessC2 0 7
      none none none).2.2 (by decide) (by decide),
   (C2_avg_session_duration_characterization exLogC2 exSessC2 0 7
      none none none).1 2 (by decide)⟩

/-- C2 counterexample: on a log with one two-pageview session (span 10) and
one single-pageview session, the SQL get_avg_session_duration gives 10 while
the Overview's getAverageEngagement gives 5 — the claim says the Overview
average is computed by the same exclusion rule and both would be 10. -/
theorem C2_claim_counterexample :
    get_avg_session_duration exLogC2 exSessC2 0 7 none none none = 10 ∧
    getAverageEngagement exLogC2 0 7 = 5 ∧
    (5 : ℚ) ≠ 10 := by
  refine ⟨?_, ?_, by norm_num⟩
  · have hl : (multiPageviewSessions (durationRows exLogC2 exSessC2 0 7 none none none)).length
        = 1 := by decide
    have hs : ((multiPageviewSessions (durationRows exLogC2 exSessC2 0 7 none none none)).map
        (fun sid => sessionSpan (durationRows exLogC2 exSessC2 0 7 none none none) sid)).sum
        = 10 := by decide
    simp only [get_avg_session_duration]
    rw [hl, hs]
    norm_num
  · have hl : (rowSessions (engagementRows exLogC2 0 7)).length = 2 := by decide
    have hs : ((rowSessions (engagementRows exLogC2 0 7)).map
        (fun sid => sessionSpan (engagementRows exLogC2 0 7) sid)).sum = 10 := by decide
    simp only [getAverageEngagement]
    rw [hl, hs]
    norm_num

/-- The mixed-radix digest is injective on calendar-valid instants. -/
theorem dateDigest_inj {t1 t2 : DateTime} (h1 : t1.valid) (h2 : t2.valid)
    (h : dateDigest t1 = dateDigest t2) : t1 = t2 := by
  obtain ⟨y1, m1, d1, hh1, mi1, s1⟩ := t1
  obtain ⟨y2, m2, d2, hh2, mi2, s2⟩ := t2
  simp only [DateTime.valid] at h1 h2
  simp only [dateDigest] at h
  simp only [DateTime.mk.injEq]
  omega

/-- Truncation preserves calendar validity. -/
theorem truncateDate_valid {t : DateTime} (h : t.valid) (period : String) :
    (truncateDate t period).valid := by
  obtain ⟨hm, hd, hh, hmi, hs⟩ := h
  unfold truncateDate
  split
  · exact ⟨hm, hd, hh, by norm_num, by norm_num⟩
  · split
    · exact ⟨hm, by norm_num, by norm_num, by norm_num, by norm_num⟩
    · exact ⟨hm, hd, by norm_num, by norm_num, by norm_num⟩

/-- C3: hashDate with period month depends only on year and month; with
period hour it distinguishes any two calendar-valid instants whose
(year, month, day, hour) differ; any unrecognized period behaves exactly as
day; and the digest of a fixed (instant, period) pair is deterministic. -/
theorem C3_hashDate_bucketing (t1 t2 : DateTime) (p : String) :
    (t1.year = t2.year → t1.month = t2.month →
      hashDate t1 "month" = hashDate t2 "month") ∧
    (t1.valid → t2.valid →
      (t1.year, t1.month, t1.day, t1.hour) ≠ (t2.year, t2.month, t2.day, t2.hour) →
      hashDate t1 "hour" ≠ hashDate t2 "hour") ∧
    (p ≠ "hour" → p ≠ "month" → hashDate t1 p = hashDate t1 "day") ∧
    hashDate t1 p = hashDate t1 p := by
  refine ⟨?_, ?_, ?_, rfl⟩
  · intro hy hm
    simp [hashDate, truncateDate, dateDigest, hy, hm]
  · intro hv1 hv2 hne hdig
    have := dateDigest_inj (truncateDate_valid hv1 "hour") (truncateDate_valid hv2 "hour") hdig
    simp only [truncateDate, if_pos rfl] at this
    obtain ⟨e1, e2, e3, e4, _, _⟩ := DateTime.mk.injEq .. ▸ this
    exact hne (by rw [e1, e2, e3, e4])
  · intro hp1 hp2
    simp [hashDate, truncateDate, hp1, hp2]

/-- C3 witness: two instants in the same month digest equally under month
bucketing; two instants in different hours of one day digest differently
under hour bucketing; the period unknown behaves as day. -/
theorem C3_hashDate_bucketing_witness :
    hashDate ⟨2025, 11, 1, 10, 0, 0⟩ "month" = hashDate ⟨2025, 11, 15, 22, 0, 0⟩ "month" ∧
    hashDate ⟨2025, 11, 5, 10, 30, 0⟩ "hour" ≠ hashDate ⟨2025, 11, 5, 15, 45, 0⟩ "hour" ∧
    hashDate ⟨2025, 11, 5, 14, 30, 0⟩ "unknown" = hashDate ⟨2025, 11, 5, 14, 30, 0⟩ "day" :=
  ⟨(C3_hashDate_bucketing ⟨2025, 11, 1, 10, 0, 0⟩ ⟨2025, 11, 15, 22, 0, 0⟩ "day").1 rfl rfl,
   (C3_hashDate_bucketing ⟨2025, 11, 5, 10, 30, 0⟩ ⟨2025, 11, 5, 15, 45, 0⟩ "day").2.1
     (by simp [DateTime.valid]) (by simp [DateTime.valid]) (by decide),
   (C3_hashDate_bucketing ⟨2025, 11, 5, 14, 30, 0⟩ ⟨2025, 11, 5, 14, 30, 0⟩ "unknown").2.2.1
     (by decide) (by decide)⟩

/-- C4: the browser table is ordered with Edge before Chrome — any user agent
containing the Edg token classifies as Edge regardless of a Chrome token; the
Edge-on-Windows test agent (which contains a Chrome token) yields
Edge / Windows / desktop; the iOS Safari mobile agent yields
Safari / iOS / mobile; and the empty or any token-free user agent yields the
sentinel Unknown / Unknown / desktop. -/
theorem C4_parseUserAgent_table (ua : String) :
    (strContains ua "Edg" = true → (parseUserAgent ua).1 = "Edge") ∧
    parseUserAgent edgeUA = ("Edge", "Windows", "desktop") ∧
    strContains edgeUA "Chrome" = true ∧
    parseUserAgent iosUA = ("Safari", "iOS", "mobile") ∧
    parseUserAgent "" = ("Unknown", "Unknown", "desktop") ∧
    ((∀ tok ∈ browserRules.map Prod.fst ++ osRules.map Prod.fst ++ mobileTokens,
        strContains ua tok = false) →
      parseUserAgent ua = ("Unknown", "Unknown", "desktop")) := by
  refine ⟨?_, by decide, by decide, by decide, by decide, ?_⟩
  · intro h
    simp [parseUserAgent, browserRules, firstMatch, h]
  · intro h
    have h1 := h "Edg" (by decide)
    have h2 := h "Chrome" (by decide)
    have h3 := h "Firefox" (by decide)
    have h4 := h "Safari" (by decide)
    have h5 := h "Windows" (by decide)
    have h6 := h "iPhone" (by decide)
    have h7 := h "iPad" (by decide)
    have h8 := h "Android" (by decide)
    have h9 := h "Mac OS X" (by decide)
    have h10 := h "Macintosh" (by decide)
    have h11 := h "Linux" (by decide)
    have h12 := h "Mobile" (by decide)
    simp [parseUserAgent, browserRules, osRules, mobileTokens, firstMatch,
      h1, h2, h3, h4, h5, h6, h7, h8, h9, h10, h11, h12]

/-- C4 witness: the ordering conjunct applied to the Edge agent, and the
sentinel conjunct applied to the token-free custom agent. -/
theorem C4_parseUserAgent_table_witness :
    (parseUserAgent edgeUA).1 = "Edge" ∧
    parseUserAgent customUA = ("Unknown", "Unknown", "desktop") :=
  ⟨(C4_parseUserAgent_table edgeUA).1 (by decide),
   (C4_parseUserAgent_table customUA).2.2.2.2.2 (by decide)⟩

/-- C5: isSpamReferrer fails open on the empty string and on inputs with no
parseable host, flags exact denylist domains, their subdomains and uppercase
variants, and passes legitimate referrers; in general a parsed host is spam
exactly when some denylist domain matches it exactly or as a suffix
subdomain. -/
theorem C5_isSpamReferrer_characterization (r : String) :
    isSpamReferrer "https://semalt.com/x" = true ∧
    isSpamReferrer "https://spam.semalt.com/y" = true ∧
    isSpamReferrer "https://SEMALT.COM/page" = true ∧
    isSpamReferrer "https://google.com/search" = false ∧
    isSpamReferrer "" = false ∧
    isSpamReferrer "not a url" = false ∧
    (parseReferrerHost r = none → isSpamReferrer r = false) ∧
    ∀ host, parseReferrerHost r = some host →
      (isSpamReferrer r = true ↔ ∃ d ∈ spamReferrers, hostMatchesSpam host d = true) := by
  refine ⟨by decide, by decide, by decide, by decide, by decide, by decide, ?_, ?_⟩
  · intro h
    simp [isSpamReferrer, h]
  · intro host h
    simp [isSpamReferrer, h, List.any_eq_true]

/-- C5 witness: the fail-open conjunct applied to an unparseable referrer and
the host-characterization conjunct applied to a subdomain referrer. -/
theorem C5_isSpamReferrer_characterization_witness :
    isSpamReferrer "not a url" = false ∧
    (isSpamReferrer "https://spam.semalt.com/y" = true ↔
      ∃ d ∈ spamReferrers, hostMatchesSpam "spam.semalt.com" d = true) :=
  ⟨(C5_isSpamReferrer_characterization "not a url").2.2.2.2.2.2.1 (by decide),
   (C5_isSpamReferrer_characterization "https://spam.semalt.com/y").2.2.2.2.2.2.2
     "spam.semalt.com" (by decide)⟩

/-- The boundary url has length exactly MaxURLSize. -/
theorem urlAtLimit_length : urlAtLimit.length = 2000 := by
  show (String.mk (List.replicate 2000 'a')).length = 2000
  rw [String.length]
  exact List.length_replicate 2000 'a'

/-- The rejected url has length MaxURLSize + 1. -/
theorem urlOverLimit_length : urlOverLimit.length = 2001 := by
  show (String.mk (List.replicate 2001 'a')).length = 2001
  rw [String.length]
  exact List.length_replicate 2001 'a'

/-- validatePayload accepts a payload, unchanged, exactly when every bound
holds. -/
theorem validatePayload_ok_iff (p : TrackingPayload) :
    validatePayload p = .ok p ↔
      (p.url.length ≤ MaxURLSize ∧
       (∀ d, p.scrollDepth = some d → 0 ≤ d ∧ d ≤ 100) ∧
       (∀ t, p.engagementTime = some t → 0 ≤ t)) := by
  obtain ⟨url, sd, et⟩ := p
  cases sd <;> cases et <;>
    simp only [validatePayload] <;>
    split_ifs <;>
    simp_all <;> omega

/-- C6: validatePayload returns either a validation error or the payload
unchanged (never a clamped value); it accepts exactly the payloads with url
length at most 2000, scroll_depth inside 0-100 and engagement_time
nonnegative; and the boundary cases behave as claimed — 2000-character url
accepted, 2001 rejected, scroll depths -1 and 101 rejected, 0 and 100
accepted, engagement time -1 rejected, 0 accepted. -/
theorem C6_payload_validation (p : TrackingPayload) :
    ((∃ e, validatePayload p = .error e) ∨ validatePayload p = .ok p) ∧
    (validatePayload p = .ok p ↔
      (p.url.length ≤ MaxURLSize ∧
       (∀ d, p.scrollDepth = some d → 0 ≤ d ∧ d ≤ 100) ∧
       (∀ t, p.engagementTime = some t → 0 ≤ t))) ∧
    validatePayload ⟨urlAtLimit, some 0, some 0⟩ = .ok ⟨urlAtLimit, some 0, some 0⟩ ∧
    validatePayload ⟨urlOverLimit, none, none⟩ = .error .urlTooLong ∧
    validatePayload ⟨"/x", some (-1), none⟩ = .error .scrollDepthOutOfRange ∧
    validatePayload ⟨"/x", some 101, none⟩ = .error .scrollDepthOutOfRange ∧
    validatePayload ⟨"/x", some 100, none⟩ = .ok ⟨"/x", some 100, none⟩ ∧
    validatePayload ⟨"/x", some 0, some 0⟩ = .ok ⟨"/x", some 0, some 0⟩ ∧
    validatePayload ⟨"/x", none, some (-1)⟩ = .error .engagementTimeNegative := by
  refine ⟨?_, validatePayload_ok_iff p, ?_, ?_, rfl, rfl, rfl, rfl, rfl⟩
  · unfold validatePayload
    split
    · exact Or.inl ⟨_, rfl⟩
    · split
      · exact Or.inl ⟨_, rfl⟩
      · split
        · exact Or.inl ⟨_, rfl⟩
        · exact Or.inr rfl
  · exact (validatePayload_ok_iff _).mpr
      ⟨by simp [urlAtLimit_length, MaxURLSize], by simp, by simp⟩
  · simp [validatePayload, urlOverLimit_length, MaxURLSize]

/-- C7 (amended): GetWebsiteByDomain resolves domains case-insensitively and
never returns a soft-deleted website, GetWebsiteIDByDomain only resolves an
exact-case live match, and an unmatched domain yields the distinct not-found
error rather than an empty result. -/
theorem C7_domain_lookup_characterization (table : List Website) (d1 d2 : String)
    (wid : Option String) :
    (lowerStr d1 = lowerStr d2 →
      (GetWebsiteByDomain table d1 wid).toOption = (GetWebsiteByDomain table d2 wid).toOption) ∧
    (∀ w, GetWebsiteByDomain table d1 wid = .ok w → w.deletedAt = none) ∧
    (∀ i, GetWebsiteIDByDomain table d1 = .ok i →
      ∃ w ∈ table, w.websiteId = i ∧ w.domain = d1 ∧ w.deletedAt = none) ∧
    GetWebsiteIDByDomain [] d1 = .error (String.append "website not found: " d1) := by
  refine ⟨?_, ?_, ?_, rfl⟩
  · intro h
    have hp : (fun w : Website => w.deletedAt == none &&
        (lowerStr w.domain == lowerStr d1 || some w.websiteId == wid))
        = (fun w : Website => w.deletedAt == none &&
        (lowerStr w.domain == lowerStr d2 || some w.websiteId == wid)) := by
      funext w
      rw [h]
    simp only [GetWebsiteByDomain, hp]
    cases List.find? (fun w : Website => w.deletedAt == none &&
        (lowerStr w.domain == lowerStr d2 || some w.websiteId == wid)) table <;> rfl
  · intro w hw
    simp only [GetWebsiteByDomain] at hw
    cases hfind : table.find? (fun w : Website => w.deletedAt == none &&
        (lowerStr w.domain == lowerStr d1 || some w.websiteId == wid)) with
    | none => rw [hfind] at hw; exact absurd hw (by simp)
    | some w2 =>
      rw [hfind] at hw
      have hpred := List.find?_some hfind
      have hw2 : w2 = w := by simpa using hw
      subst hw2
      have := (Bool.and_eq_true _ _).mp hpred
      exact eq_of_beq this.1
  · intro i hi
    simp only [GetWebsiteIDByDomain] at hi
    cases hfind : table.find? (fun w : Website => w.domain == d1 && w.deletedAt == none) with
    | none => rw [hfind] at hi; exact absurd hi (by simp)
    | some w2 =>
      rw [hfind] at hi
      have hpred := List.find?_some hfind
      have hmem := List.mem_of_find?_eq_some hfind
      have hi2 : w2.websiteId = i := by simpa using hi
      have hp := (Bool.and_eq_true _ _).mp hpred
      exact ⟨w2, hmem, hi2, eq_of_beq hp.1, eq_of_beq hp.2⟩

/-- C7 witness: case-insensitive agreement of GetWebsiteByDomain on two case
variants of the example domain, and the no-soft-delete conclusion applied to
its concrete lookup result. -/
theorem C7_domain_lookup_characterization_witness :
    (GetWebsiteByDomain exSitesC7 "EXAMPLE.com" none).toOption
      = (GetWebsiteByDomain exSitesC7 "Example.COM" none).toOption ∧
    (⟨"id1", "example.com", none⟩ : Website).deletedAt = none :=
  ⟨(C7_domain_lookup_characterization exSitesC7 "EXAMPLE.com" "Example.COM" none).1 (by decide),
   (C7_domain_lookup_characterization exSitesC7 "example.com" "example.com" none).2.1
     ⟨"id1", "example.com", none⟩ rfl⟩

/-- C7 counterexample: with one live website row for example.com, resolving
the uppercase variant through GetWebsiteIDByDomain fails with not-found while
GetWebsiteByDomain succeeds — resolution by domain is not universally
case-insensitive as the claim states. -/
theorem C7_claim_counterexample :
    GetWebsiteIDByDomain exSitesC7 "EXAMPLE.COM"
      = .error "website not found: EXAMPLE.COM" ∧
    GetWebsiteByDomain exSitesC7 "EXAMPLE.COM" none
      = .ok ⟨"id1", "example.com", none⟩ :=
  ⟨rfl, rfl⟩

/-- C6 witness: the acceptance characterization applied to an in-range
payload, with each bound discharged concretely. -/
theorem C6_payload_validation_witness :
    validatePayload ⟨"/x", some 50, some 1000⟩ = .ok ⟨"/x", some 50, some 1000⟩ ∧
    ((∃ e, validatePayload ⟨"/x", some 50, some 1000⟩ = .error e) ∨
      validatePayload ⟨"/x", some 50, some 1000⟩ = .ok ⟨"/x", some 50, some 1000⟩) :=
  ⟨(C6_payload_validation ⟨"/x", some 50, some 1000⟩).2.1.mpr
      ⟨by decide, by intro d hd; injection hd with h; omega,
       by intro t ht; injection ht with h; omega⟩,
   (C6_payload_validation ⟨"/x", some 50, some 1000⟩).1⟩

/-- C8 (amended): the CLI stats commands reject a days value outside 1-365 or
a top value outside 1-100 with a validation error before any storage query
runs, and pass in-range values to the query unchanged; the HTTP time-series
handler does not follow this contract — it never rejects, silently clamping
days above 90 to 90 and querying with everything else as-is. -/
theorem C8_parameter_validation_characterization (days top : Int) :
    ((days < 1 ∨ days > 365) →
      runStatsPagesParams days top = .validationError "days must be between 1 and 365") ∧
    (1 ≤ days → days ≤ 365 → (top < 1 ∨ top > 100) →
      runStatsPagesParams days top = .validationError "top must be between 1 and 100") ∧
    (1 ≤ days → days ≤ 365 → 1 ≤ top → top ≤ 100 →
      runStatsPagesParams days top = .queried (days, top)) ∧
    (days > 90 → handleTimeSeriesParams days = .queried 90) ∧
    (days ≤ 90 → handleTimeSeriesParams days = .queried days) := by
  refine ⟨?_, ?_, ?_, ?_, ?_⟩
  · intro h
    have : (days < 1 || days > 365) = true := by
      rcases h with h | h <;> simp [h]
    simp [runStatsPagesParams, this]
  · intro h1 h2 h3
    have hd : (days < 1 || days > 365) = false := by
      simp
      omega
    have ht : (top < 1 || top > 100) = true := by
      rcases h3 with h | h <;> simp [h]
    simp [runStatsPagesParams, hd, ht]
  · intro h1 h2 h3 h4
    have hd : (days < 1 || days > 365) = false := by
      simp
      omega
    have ht : (top < 1 || top > 100) = false := by
      simp
      omega
    simp [runStatsPagesParams, hd, ht]
  · intro h
    simp [handleTimeSeriesParams, h]
  · intro h
    have : ¬(days > 90) := by omega
    simp [handleTimeSeriesParams, this]

/-- C8 witness: out-of-range days rejected, in-range parameters queried
unchanged, and the HTTP handler clamping at a concrete over-limit value. -/
theorem C8_parameter_validation_characterization_witness :
    runStatsPagesParams 400 10 = .validationError "days must be between 1 and 365" ∧
    runStatsPagesParams 7 10 = .queried (7, 10) ∧
    handleTimeSeriesParams 400 = .queried 90 :=
  ⟨(C8_parameter_validation_characterization 400 10).1 (by omega),
   (C8_parameter_validation_characterization 7 10).2.2.1
     (by omega) (by omega) (by omega) (by omega),
   (C8_parameter_validation_characterization 400 10).2.2.2.1 (by omega)⟩

/-- C8 counterexample: a days value of 400 (outside 1-365) is not rejected by
the time-series aggregation endpoint — the storage query executes with the
silently clamped value 90; a days value of 0 is likewise passed straight to
the query. -/
theorem C8_claim_counterexample :
    handleTimeSeriesParams 400 = .queried 90 ∧
    handleTimeSeriesParams 0 = .queried 0 := by
  decide

/-- Membership through insertByCount. -/
theorem mem_insertByCount {z x : String × Nat} {l : List (String × Nat)} :
    z ∈ insertByCount x l ↔ z = x ∨ z ∈ l := by
  induction l with
  | nil => simp [insertByCount]
  | cons y ys ih =>
    rw [insertByCount]
    split
    · simp
    · simp only [List.mem_cons, ih]
      tauto

/-- insertByCount preserves descending sortedness by count. -/
theorem sorted_insertByCount (x : String × Nat) {l : List (String × Nat)}
    (h : l.Sorted (fun a b => b.2 ≤ a.2)) :
    (insertByCount x l).Sorted (fun a b => b.2 ≤ a.2) := by
  induction l with
  | nil => simp [insertByCount]
  | cons y ys ih =>
    rw [List.sorted_cons] at h
    rw [insertByCount]
    split
    · rename_i hc
      rw [List.sorted_cons]
      refine ⟨?_, List.sorted_cons.mpr h⟩
      intro b hb
      rcases List.mem_cons.mp hb with rfl | hb2
      · exact hc
      · exact le_trans (h.1 b hb2) hc
    · rename_i hc
      rw [List.sorted_cons]
      refine ⟨?_, ih h.2⟩
      intro b hb
      rcases mem_insertByCount.mp hb with rfl | hb2
      · omega
      · exact h.1 b hb2

/-- The insertion sort output is descending by count. -/
theorem sorted_sortByCountDesc (l : List (String × Nat)) :
    (sortByCountDesc l).Sorted (fun a b => b.2 ≤ a.2) := by
  induction l with
  | nil => simp [sortByCountDesc]
  | cons x xs ih => exact sorted_insertByCount x ih

/-- Sorting preserves membership. -/
theorem mem_sortByCountDesc {z : String × Nat} {l : List (String × Nat)} :
    z ∈ sortByCountDesc l ↔ z ∈ l := by
  induction l with
  | nil => simp [sortByCountDesc]
  | cons x xs ih => simp [sortByCountDesc, mem_insertByCount, ih]

/-- Every breakdown branch obeys the limit. -/
theorem breakdownBranch_length_le (rows : List (Event × Session))
    (key : Event × Session → String) (lim : Nat) :
    (breakdownBranch rows key lim).length ≤ lim :=
  List.length_take_le lim _

/-- Every breakdown branch is descending by count. -/
theorem breakdownBranch_sorted (rows : List (Event × Session))
    (key : Event × Session → String) (lim : Nat) :
    (breakdownBranch rows key lim).Sorted (fun a b => b.2 ≤ a.2) :=
  (sorted_sortByCountDesc _).sublist (List.take_sublist _ _)

/-- Every name in a breakdown branch is the key of some row. -/
theorem breakdownBranch_mem {z : String × Nat} {rows : List (Event × Session)}
    {key : Event × Session → String} {lim : Nat}
    (h : z ∈ breakdownBranch rows key lim) : ∃ r ∈ rows, key r = z.1 := by
  have h1 : z ∈ sortByCountDesc (groupCounts (rows.map key)) :=
    List.take_subset _ _ h
  have h2 : z ∈ groupCounts (rows.map key) := mem_sortByCountDesc.mp h1
  simp only [groupCounts, List.mem_map] at h2
  obtain ⟨k, hk, hz⟩ := h2
  have hk2 : k ∈ rows.map key := List.mem_dedup.mp hk
  obtain ⟨r, hr, hrk⟩ := List.mem_map.mp hk2
  exact ⟨r, hr, by rw [hrk, ← hz]⟩

/-- C9 (amended): the SQL get_breakdown accepts exactly the dimensions
country, browser, device, referrer, city, region and page; any other
dimension fails with an error message enumerating that set; every successful
result is ordered by count descending and truncated to the limit, null
country values group under Unknown and null referrers under Direct / None;
the CLI breakdown command, however, accepts a different set — country,
browser, device, referrer and os. -/
theorem C9_breakdown_characterization (evs : List Event) (sess : List Session)
    (dim : String) (now days : Int) (lim : Nat)
    (country browser device page : Option String) :
    (dim ∉ validBreakdownDimensions →
      get_breakdown evs sess dim now days lim country browser device page
        = .error (invalidDimensionMessage dim)) ∧
    (dim ∈ validBreakdownDimensions →
      ∃ l, get_breakdown evs sess dim now days lim country browser device page = .ok l ∧
        l.length ≤ lim ∧ l.Sorted (fun a b => b.2 ≤ a.2)) ∧
    (∀ l, get_breakdown evs sess "country" now days lim country browser device page = .ok l →
      ∀ z ∈ l, z.1 = "Unknown" ∨
        ∃ r ∈ breakdownRows evs sess now days none browser device page,
          r.2.country = some z.1) ∧
    (∀ l, get_breakdown evs sess "referrer" now days lim country browser device page = .ok l →
      ∀ z ∈ l, z.1 = "Direct / None" ∨
        ∃ r ∈ breakdownRows evs sess now days country browser device page,
          r.1.referrerDomain = some z.1) ∧
    (runStatsBreakdownDimensionCheck dim = .ok () ↔
      dim ∈ ["country", "browser", "device", "referrer", "os"]) := by
  refine ⟨?_, ?_, ?_, ?_, ?_⟩
  · intro h
    simp only [validBreakdownDimensions, List.mem_cons, List.not_mem_nil, or_false,
      not_or] at h
    obtain ⟨h1, h2, h3, h4, h5, h6, h7⟩ := h
    simp [get_breakdown, h1, h2, h3, h4, h5, h6, h7]
  · intro h
    simp only [validBreakdownDimensions, List.mem_cons, List.not_mem_nil, or_false] at h
    rcases h with rfl | rfl | rfl | rfl | rfl | rfl | rfl <;>
      exact ⟨_, rfl, breakdownBranch_length_le _ _ _, breakdownBranch_sorted _ _ _⟩
  · intro l hl z hz
    injection hl with h
    subst h
    obtain ⟨r, hr, hk⟩ := breakdownBranch_mem hz
    cases hc : r.2.country with
    | none => left; rw [← hk, hc]; rfl
    | some c => right; exact ⟨r, hr, by rw [hc, ← hk, hc]; rfl⟩
  · intro l hl z hz
    injection hl with h
    subst h
    obtain ⟨r, hr, hk⟩ := breakdownBranch_mem hz
    cases hc : r.1.referrerDomain with
    | none => left; rw [← hk, hc]; rfl
    | some c => right; exact ⟨r, hr, by rw [hc, ← hk, hc]; rfl⟩
  · constructor
    · intro h
      unfold runStatsBreakdownDimensionCheck at h
      split at h
      · rename_i hc
        simp only [Bool.or_eq_true, decide_eq_true_eq] at hc
        simp only [List.mem_cons, List.not_mem_nil, or_false]
        tauto
      · exact absurd h (by simp)
    · intro h
      simp only [List.mem_cons, List.not_mem_nil, or_false] at h
      have hcond : (dim == "country" || dim == "browser" || dim == "device" ||
          dim == "referrer" || dim == "os") = true := by
        simp only [Bool.or_eq_true, beq_iff_eq]
        tauto
      simp only [runStatsBreakdownDimensionCheck]
      rw [if_pos]
      simpa using hcond

/-- C9 witness: the valid-dimension conjunct applied to city over an empty
store and the invalid-dimension conjunct applied to os. -/
theorem C9_breakdown_characterization_witness :
    (∃ l, get_breakdown [] [] "city" 0 7 5 none none none none = .ok l ∧
      l.length ≤ 5 ∧ l.Sorted (fun a b : String × Nat => b.2 ≤ a.2)) ∧
    get_breakdown [] [] "os" 0 7 5 none none none none
      = .error (invalidDimensionMessage "os") :=
  ⟨(C9_breakdown_characterization [] [] "city" 0 7 5 none none none none).2.1 (by decide),
   (C9_breakdown_characterization [] [] "os" 0 7 5 none none none none).1 (by decide)⟩

/-- C9 counterexample: the CLI breakdown accepts os, which is outside the
claimed dimension set, and rejects city, which is inside it, with an error
enumerating a different set — so the breakdown operation does not accept
exactly the claimed seven dimensions. -/
theorem C9_claim_counterexample :
    runStatsBreakdownDimensionCheck "os" = .ok () ∧
    runStatsBreakdownDimensionCheck "city"
      = .error "invalid dimension: city (valid: country, browser, device, referrer, os)" ∧
    "os" ∉ validBreakdownDimensions ∧
    "city" ∈ validBreakdownDimensions :=
  ⟨rfl, rfl, by decide, by decide⟩

/-- C10 (amended): inside the composite Overview the two critical counts
surface storage failures — the operation succeeds exactly when visitors and
pageviews both load — while each non-critical sub-query degrades its own
field to empty or zero without failing the operation; the top-pages handler
surfaces a storage failure as a distinct 500 error, never an empty result;
the dashboard-stats handler, however, swallows the failure of its single
storage call and answers success with all-zero values. -/
theorem C10_error_surfacing_characterization (q : OverviewQueries) (e : String)
    (rows : List PageStat) :
    ((∃ s, GetOverviewStats q = .ok s) ↔
      (∃ v, q.visitors = .ok v) ∧ (∃ p, q.pageviews = .ok p)) ∧
    (∀ v p, q.visitors = .ok v → q.pageviews = .ok p → q.browsers = .error e →
      ∃ s, GetOverviewStats q = .ok s ∧ s.totalVisitors = v ∧ s.totalPageviews = p ∧
        s.browserDistribution = []) ∧
    HandleTopPages (.error e) = .error (500, "Failed to query top pages") ∧
    HandleTopPages (.ok rows) = .ok rows ∧
    HandleDashboardStats (.error e) = ⟨0, 0, 0, 0⟩ := by
  refine ⟨?_, ?_, rfl, rfl, rfl⟩
  · constructor
    · intro ⟨s, hs⟩
      unfold GetOverviewStats at hs
      cases hv : q.visitors with
      | error e2 => rw [hv] at hs; exact absurd hs (by simp)
      | ok v =>
        rw [hv] at hs
        cases hp : q.pageviews with
        | error e2 => rw [hp] at hs; exact absurd hs (by simp)
        | ok p => exact ⟨⟨v, rfl⟩, ⟨p, rfl⟩⟩
    · intro ⟨⟨v, hv⟩, ⟨p, hp⟩⟩
      exact ⟨_, by unfold GetOverviewStats; rw [hv, hp]⟩
  · intro v p hv hp hb
    refine ⟨_, by unfold GetOverviewStats; rw [hv, hp], rfl, rfl, ?_⟩
    rw [hb]
    rfl

/-- C10 witness: the Overview success characterization and the degraded
browser distribution at a concrete query bundle whose browser sub-query
fails. -/
theorem C10_error_surfacing_characterization_witness :
    (∃ s, GetOverviewStats
      ⟨.ok 3, .ok 7, .error "x", .error "x", .error "down", .ok [], .ok [], .ok 0⟩
        = .ok s ∧ s.totalVisitors = 3 ∧ s.totalPageviews = 7 ∧
        s.browserDistribution = []) ∧
    (∃ s, GetOverviewStats
      ⟨.ok 3, .ok 7, .error "x", .error "x", .error "down", .ok [], .ok [], .ok 0⟩
        = .ok s) :=
  ⟨(C10_error_surfacing_characterization
      ⟨.ok 3, .ok 7, .error "x", .error "x", .error "down", .ok [], .ok [], .ok 0⟩
      "down" []).2.1 3 7 rfl rfl rfl,
   ((C10_error_surfacing_characterization
      ⟨.ok 3, .ok 7, .error "x", .error "x", .error "down", .ok [], .ok [], .ok 0⟩
      "down" []).1).mpr ⟨⟨3, rfl⟩, ⟨7, rfl⟩⟩⟩

/-- C10 counterexample: the dashboard-stats handler receives a failing
storage result for its single aggregation call and silently converts it to a
successful all-zero response — the claim says a single query's failure is
surfaced as a distinct error and never becomes a zero result. -/
theorem C10_claim_counterexample :
    HandleDashboardStats (.error "connection refused") = ⟨0, 0, 0, 0⟩ ∧
    HandleDashboardStats (.error "connection refused")
      = HandleDashboardStats (.ok (0, 0, 0, 0)) :=
  ⟨rfl, rfl⟩

end Kaunta
